import Mathlib

set_option autoImplicit false

/-!
Shallow embedding of
`pytest-server-fixtures/pytest_server_fixtures/serverclass/kubernetes.py`
(the `KubernetesServer` server class) and of the behaviour of its `retry`
decorator (the `retry` PyPI package), together with proofs of the spec's
claims about the pod lifecycle state machine.
-/

namespace PytestServerFixtures

/-- A Kubernetes API error (`kubernetes.client.rest.ApiException`), carrying
the HTTP status code and a reason string. -/
structure ApiException where
  status : Nat
  reason : String
deriving DecidableEq

/-- The exceptions the embedded code can raise. -/
inductive PyErr where
  /-- An `ApiException` escaping to the caller. -/
  | apiExc (e : ApiException)
  /-- `ServerFixtureNotRunningException` (the spec's `NotRunningError`). -/
  | notRunning
  /-- `ServerFixtureNotTerminatedException` (the spec's `NotTerminatedError`). -/
  | notTerminated
  /-- `NotRunningInKubernetesException` (the spec's `NotRunningInClusterError`). -/
  | notRunningInKubernetes
  /-- A Python `NameError` raised on reading an unbound global name. -/
  | nameError (n : String)
deriving DecidableEq

/-- The part of `V1PodStatus` the code reads: the lifecycle `phase` and the
assigned `pod_ip`. -/
structure PodStatus where
  phase : String
  pod_ip : String
deriving DecidableEq

/-- One response of the cluster to a `read_namespaced_pod_status` call:
either a pod status or an `ApiException`. -/
abbrev StatusResp := Except ApiException PodStatus

/-- Embedding of `_get_pod_status` (kubernetes.py lines 119-125): returns the
fetched status on success; on `ApiException` the error is logged and
re-raised unchanged. -/
def getPodStatus (resp : StatusResp) : Except PyErr PodStatus :=
  match resp with
  | Except.ok s => Except.ok s
  | Except.error e => Except.error (PyErr.apiExc e)

/-- Embedding of one attempt of `_wait_until_running` (lines 128-132): fetch
the status and raise `ServerFixtureNotRunningException` when the phase is not
`Running`; an `ApiException` from the fetch propagates as such. -/
def waitUntilRunningAttempt (resp : StatusResp) : Except PyErr Unit :=
  match getPodStatus resp with
  | Except.error e => Except.error e
  | Except.ok s =>
    if s.phase ≠ "Running" then Except.error PyErr.notRunning else Except.ok ()

/-- Embedding of one attempt of `_wait_until_teardown` (lines 135-142): a
successful status fetch means the pod still exists, so
`ServerFixtureNotTerminatedException` is raised; an `ApiException` with HTTP
status 404 means the pod is gone and the attempt returns; any other
`ApiException` is re-raised. -/
def waitUntilTeardownAttempt (resp : StatusResp) : Except PyErr Unit :=
  match getPodStatus resp with
  | Except.ok _ => Except.error PyErr.notTerminated
  | Except.error (PyErr.apiExc e) =>
    if e.status = 404 then Except.ok () else Except.error (PyErr.apiExc e)
  | Except.error e => Except.error e

/-- Embedding of the `retry` decorator (`__retry_internal` of the `retry`
PyPI package): up to `tries` attempts; an exception satisfying `retryable`
with tries remaining causes a sleep of the current delay, after which the
delay is multiplied by `backoff` and capped at `maxDelay`; the exception of
the final attempt, and any non-retryable exception, propagates immediately
with no sleep. `f i` is the outcome of the i-th attempt (0-based); the
result carries the outcome, the number of attempts made, and the list of
sleeps performed, in order. -/
def retryRun (retryable : PyErr → Bool) (f : Nat → Except PyErr Unit)
    (backoff maxDelay : Nat) : Nat → Nat → Nat → Except PyErr Unit × Nat × List Nat
  | 0, _, _ => (Except.ok (), 0, [])
  | tries + 1, idx, curDelay =>
    match f idx with
    | Except.ok a => (Except.ok a, 1, [])
    | Except.error e =>
      if retryable e then
        match tries with
        | 0 => (Except.error e, 1, [])
        | t + 1 =>
          let next := retryRun retryable f backoff maxDelay (t + 1) (idx + 1)
            (min (curDelay * backoff) maxDelay)
          (next.1, next.2.1 + 1, curDelay :: next.2.2)
      else (Except.error e, 1, [])

/-- Test for `ServerFixtureNotRunningException`, the only exception type the
decorator on `_wait_until_running` retries. -/
def isNotRunningExc : PyErr → Bool
  | PyErr.notRunning => true
  | _ => false

/-- Test for `ServerFixtureNotTerminatedException`, the only exception type
the decorator on `_wait_until_teardown` retries. -/
def isNotTerminatedExc : PyErr → Bool
  | PyErr.notTerminated => true
  | _ => false

/-- Embedding of `_wait_until_running` under its decorator
`retry(ServerFixtureNotRunningException, tries=28, delay=1, backoff=2,
max_delay=10)` (line 127). `responses i` is the cluster's response to the
i-th status call; the result carries the outcome, the number of attempts
(one status call each) and the sleeps performed. -/
def waitUntilRunningRun (responses : Nat → StatusResp) :
    Except PyErr Unit × Nat × List Nat :=
  retryRun isNotRunningExc (fun i => waitUntilRunningAttempt (responses i)) 2 10 28 0 1

/-- Embedding of `_wait_until_teardown` under its decorator
`retry(ServerFixtureNotTerminatedException, tries=28, delay=1, backoff=2,
max_delay=10)` (line 134). -/
def waitUntilTeardownRun (responses : Nat → StatusResp) :
    Except PyErr Unit × Nat × List Nat :=
  retryRun isNotTerminatedExc (fun i => waitUntilTeardownAttempt (responses i)) 2 10 28 0 1

/-- Embedding of the API-outcome handling of `_create_pod` (lines 100-108):
on `ApiException` from `create_namespaced_pod` the error is logged and
re-raised. `createResp` is the cluster's response to the single creation
call. -/
def createPodResult (createResp : Except ApiException Unit) : Except PyErr Unit :=
  match createResp with
  | Except.ok _ => Except.ok ()
  | Except.error e => Except.error (PyErr.apiExc e)

/-- Embedding of `launch` (lines 56-64): create the pod, then wait until
running; an `ApiException` is logged by the surrounding handler and
re-raised, and every other exception propagates unchanged. The result
carries the outcome, the number of `create_namespaced_pod` calls made, and
the number of polling attempts (status calls) made. -/
def launchRun (createResp : Except ApiException Unit)
    (responses : Nat → StatusResp) : Except PyErr Unit × Nat × Nat :=
  match createPodResult createResp with
  | Except.error e => (Except.error e, 1, 0)
  | Except.ok _ =>
    let r := waitUntilRunningRun responses
    (r.1, 1, r.2.1)

/-- Embedding of `_delete_pod` (lines 110-117): an `ApiException` from
`delete_namespaced_pod` is logged and swallowed, so the call always returns
normally. -/
def deletePodResult (deleteResp : Except ApiException Unit) : Except PyErr Unit :=
  match deleteResp with
  | Except.ok _ => Except.ok ()
  | Except.error _ => Except.ok ()

/-- Embedding of `teardown` (lines 69-72): delete the pod (failures
swallowed), then wait until the pod is gone. -/
def teardownRun (deleteResp : Except ApiException Unit)
    (responses : Nat → StatusResp) : Except PyErr Unit × Nat × List Nat :=
  match deletePodResult deleteResp with
  | Except.error e => (Except.error e, 0, [])
  | Except.ok _ => waitUntilTeardownRun responses

/-- Embedding of the `hostname` property (lines 74-79): fetch the current
status, raise `ServerFixtureNotRunningException` when the phase is not
`Running`, otherwise return the pod IP. -/
def hostnameRead (resp : StatusResp) : Except PyErr String :=
  match getPodStatus resp with
  | Except.error e => Except.error e
  | Except.ok status =>
    if status.phase ≠ "Running" then Except.error PyErr.notRunning
    else Except.ok status.pod_ip

/-- Embedding of `launch` followed immediately by reading `hostname`: the
hostname read issues one further status call, consuming the response after
the ones consumed by the wait loop. -/
def launchThenHostname (createResp : Except ApiException Unit)
    (responses : Nat → StatusResp) : Except PyErr String :=
  let l := launchRun createResp responses
  match l.1 with
  | Except.error e => Except.error e
  | Except.ok _ => hostnameRead (responses l.2.2)

/-- A Python dict with string keys and values, as the ordered list of its
entries; inserting through `dictSet` keeps keys unique. -/
abbrev StrDict := List (String × String)

/-- Lookup in a dict: the value of the first entry with the given key. -/
def dictGet (d : StrDict) (k : String) : Option String :=
  match d with
  | [] => none
  | p :: rest => if p.1 = k then some p.2 else dictGet rest k

/-- Python dict item assignment: replace the entry with the given key in
place, or append a new entry. -/
def dictSet (d : StrDict) (k v : String) : StrDict :=
  match d with
  | [] => [(k, v)]
  | p :: rest => if p.1 = k then (k, v) :: rest else p :: dictSet rest k v

/-- Modelled from the spec: `merge_dicts` (imported from `.common`, which is
not under `src/`) unions the two mappings, and on key collision the entries
of the second argument — the system labels at the call site — win. Realised
as Python dict-update: set each entry of the second dict into a copy of the
first. -/
def merge_dicts (x y : StrDict) : StrDict :=
  y.foldl (fun acc kv => dictSet acc kv.1 kv.2) x

/-- The instance fields of a `KubernetesServer` that `__init__`
(lines 41-54) assigns and later methods read. `name` is supplied by the
`ServerClass` base (not under `src/`). -/
structure KubernetesServer where
  image : String
  runCmd : List String
  labels : StrDict
  name : String
deriving DecidableEq

/-- Externally visible side effects of `__init__`, in order; obtaining the
API client (`k8sclient.CoreV1Api()`, line 54) is the only one. -/
inductive InitEvent where
  | apiClientObtained
deriving DecidableEq

/-- Embedding of `__init__` (lines 41-54): raises
`NotRunningInKubernetesException` when the process is not in a cluster,
before any interaction with the cluster API; otherwise stores the image,
the command returned by get_cmd (stored in runCmd), and the caller labels merged with the
three system labels (system entries second, hence winning collisions), then
obtains the API client. The event list records the side effects that
occurred. -/
def initServer (inCluster : Bool) (server_type : String) (cmd : List String)
    (image : String) (labels : StrDict) (session_id : String) (name : String) :
    Except PyErr KubernetesServer × List InitEvent :=
  if inCluster then
    (Except.ok
      ⟨image, cmd,
        merge_dicts labels
          [("server-fixtures", "kubernetes-server-fixtures"),
           ("server-fixtures/server-type", server_type),
           ("server-fixtures/session-id", session_id)],
        name⟩,
      [InitEvent.apiClientObtained])
  else
    (Except.error PyErr.notRunningInKubernetes, [])

/-- Embedding of the `labels` property (lines 85-87): returns
`self._labels`. -/
def labelsRead (s : KubernetesServer) : StrDict := s.labels

/-- Field assignments performed by `launch` (lines 56-64): none — no method
other than `__init__` assigns an instance field, so the field state after
the call equals the field state before it. -/
def launchFieldEffect (s : KubernetesServer) : KubernetesServer := s

/-- Field assignments performed by `teardown` (lines 69-72): none. -/
def teardownFieldEffect (s : KubernetesServer) : KubernetesServer := s

/-- Field assignments performed by reading `hostname` (lines 74-79): none. -/
def hostnameFieldEffect (s : KubernetesServer) : KubernetesServer := s

/-- The container object built by `_get_pod_spec` (lines 89-94). -/
structure V1Container where
  name : String
  image : String
  command : List String
deriving DecidableEq

/-- The pod spec object built by `_get_pod_spec` (lines 96-98). -/
structure V1PodSpec where
  containers : List V1Container
deriving DecidableEq

/-- The pod metadata built by `_create_pod` (line 103). -/
structure V1ObjectMeta where
  name : String
  labels : StrDict
deriving DecidableEq

/-- The pod body submitted to `create_namespaced_pod` (lines 102-105). -/
structure V1Pod where
  metadata : V1ObjectMeta
  spec : V1PodSpec
deriving DecidableEq

/-- Embedding of `_get_pod_spec` (lines 89-98): a spec with a single
container named `fixture`, running the stored image and command. -/
def getPodSpec (s : KubernetesServer) : V1PodSpec :=
  ⟨[⟨"fixture", s.image, s.runCmd⟩]⟩

/-- The pod body that `_create_pod` (lines 100-105) submits: metadata
carrying the instance name and merged labels, and the spec from
`_get_pod_spec`. -/
def createPodBody (s : KubernetesServer) : V1Pod :=
  ⟨⟨s.name, s.labels⟩, getPodSpec s⟩

/-- Embedding of the module-level namespace resolution (lines 22-30), with
Python name binding modelled faithfully: line 23 binds the UPPER-CASE global
`NAMESPACE` from `CONFIG.k8s_namespace`, but line 27 (`if not namespace:`)
reads the lower-case global `namespace`, which no earlier statement binds,
so reaching line 27 raises a `NameError`. The lower-case global is modelled
as an `Option String` (`none` = unbound; it starts unbound), and the result
is its final value after the module body runs. The dead branches show what
lines 27-29 would do were the name bound: keep a non-empty value, else read
and strip the marker file. -/
def moduleNamespaceInit (markerExists : Bool) (configNamespace : String)
    (markerContent : String) : Except PyErr (Option String) :=
  let inClusterVar := markerExists
  let _upperNamespaceVar := configNamespace
  let lowerNamespaceVar : Option String := none
  if inClusterVar then
    match lowerNamespaceVar with
    | none => Except.error (PyErr.nameError "namespace")
    | some ns =>
      if ns = "" then Except.ok (some markerContent.trim)
      else Except.ok (some ns)
  else
    Except.ok lowerNamespaceVar

/-- Embedding of the `namespace` property (lines 81-83): returns the
module-level lower-case global `namespace`, raising a `NameError` when that
global is unbound. -/
def namespaceRead (g : Option String) : Except PyErr String :=
  match g with
  | none => Except.error (PyErr.nameError "namespace")
  | some s => Except.ok s

/-- The sequence of sleeps produced by starting at delay `d` and, after each
sleep, multiplying the delay by `b` and capping it at `m`. -/
def delaySeq (b m : Nat) : Nat → Nat → List Nat
  | _, 0 => []
  | d, k + 1 => d :: delaySeq b m (min (d * b) m) k

/-- Attempt `i` fails with an exception the retry decorator retries. -/
def RetryableAt (p : PyErr → Bool) (f : Nat → Except PyErr Unit) (i : Nat) : Prop :=
  ∃ e, f i = Except.error e ∧ p e = true

/-- The i-th status call succeeds and reports a phase other than `Running`. -/
def ObservesNonRunning (responses : Nat → StatusResp) (i : Nat) : Prop :=
  ∃ s, responses i = Except.ok s ∧ s.phase ≠ "Running"

/-- The i-th status call succeeds (the pod resource is still found). -/
def StatusFound (responses : Nat → StatusResp) (i : Nat) : Prop :=
  ∃ s, responses i = Except.ok s

/-- A response stream whose first status call fails with HTTP 500 and whose
later calls report a running pod with an assigned IP. -/
def apiErrorThenRunning : Nat → StatusResp := fun i =>
  if i = 0 then Except.error ⟨500, "boom"⟩
  else Except.ok ⟨"Running", "10.0.0.9"⟩

/-- A response stream that always reports a pending pod with no IP yet. -/
def alwaysPending : Nat → StatusResp := fun _ => Except.ok ⟨"Pending", ""⟩

/-- A response stream whose first status call reports a pending pod and whose
later calls report a running pod with an assigned IP. -/
def pendingThenRunning : Nat → StatusResp := fun i =>
  if i = 0 then Except.ok ⟨"Pending", ""⟩
  else Except.ok ⟨"Running", "10.0.0.5"⟩

/-- A response stream that always fails with HTTP 404: the pod resource is
never found. -/
def notFound404 : Nat → StatusResp := fun _ => Except.error ⟨404, "Not Found"⟩

/-- The server instance constructed in the spec's example scenario:
image `redis:7`, command `redis-server`, caller labels carrying `team: x`
and an attempt to override the `server-fixtures` system label. -/
def exampleServer : KubernetesServer :=
  ⟨"redis:7", ["redis-server"],
    merge_dicts [("server-fixtures", "override-attempt"), ("team", "x")]
      [("server-fixtures", "kubernetes-server-fixtures"),
       ("server-fixtures/server-type", "redis"),
       ("server-fixtures/session-id", "sess1")],
    "pod-1"⟩

/-! General lemmas about the retry combinator. -/

/-- A successful attempt ends the loop at once: one attempt, no sleep. -/
theorem retryRun_succeeds (p : PyErr → Bool) (f : Nat → Except PyErr Unit)
    (b m t idx d : Nat) (h : f idx = Except.ok ()) :
    retryRun p f b m (t + 1) idx d = (Except.ok (), 1, []) := by
  simp [retryRun, h]

/-- A non-retryable exception propagates at once: one attempt, no sleep. -/
theorem retryRun_aborts_now (p : PyErr → Bool) (f : Nat → Except PyErr Unit)
    (b m t idx d : Nat) (e : PyErr) (hf : f idx = Except.error e)
    (hp : p e = false) :
    retryRun p f b m (t + 1) idx d = (Except.error e, 1, []) := by
  simp [retryRun, hf, hp]

/-- A retryable exception on the final attempt propagates with no sleep. -/
theorem retryRun_last_failure (p : PyErr → Bool) (f : Nat → Except PyErr Unit)
    (b m idx d : Nat) (e : PyErr) (hf : f idx = Except.error e)
    (hp : p e = true) :
    retryRun p f b m 1 idx d = (Except.error e, 1, []) := by
  simp [retryRun, hf, hp]

/-- A retryable exception with tries left: sleep the current delay, then
continue with the doubled-and-capped delay. -/
theorem retryRun_retries (p : PyErr → Bool) (f : Nat → Except PyErr Unit)
    (b m t idx d : Nat) (e : PyErr) (hf : f idx = Except.error e)
    (hp : p e = true) :
    retryRun p f b m (t + 2) idx d =
      ((retryRun p f b m (t + 1) (idx + 1) (min (d * b) m)).1,
       (retryRun p f b m (t + 1) (idx + 1) (min (d * b) m)).2.1 + 1,
       d :: (retryRun p f b m (t + 1) (idx + 1) (min (d * b) m)).2.2) := by
  conv_lhs => rw [retryRun]
  rw [hf]
  simp [hp]

/-- The loop makes at most `tries` attempts. -/
theorem retryRun_attempts_le (p : PyErr → Bool) (f : Nat → Except PyErr Unit)
    (b m : Nat) : ∀ (t idx d : Nat), (retryRun p f b m t idx d).2.1 ≤ t := by
  intro t
  induction t with
  | zero => intro idx d; simp [retryRun]
  | succ t ih =>
    intro idx d
    cases hf : f idx with
    | ok a =>
      cases a
      rw [retryRun_succeeds p f b m t idx d hf]
      exact Nat.succ_le_succ (Nat.zero_le t)
    | error e =>
      cases hp : p e with
      | false =>
        rw [retryRun_aborts_now p f b m t idx d e hf hp]
        exact Nat.succ_le_succ (Nat.zero_le t)
      | true =>
        cases t with
        | zero =>
          rw [retryRun_last_failure p f b m idx d e hf hp]
        | succ t2 =>
          rw [retryRun_retries p f b m t2 idx d e hf hp]
          exact Nat.add_le_add_right (ih (idx + 1) (min (d * b) m)) 1

/-- With a positive try budget the loop makes at least one attempt. -/
theorem retryRun_attempts_pos (p : PyErr → Bool) (f : Nat → Except PyErr Unit)
    (b m t idx d : Nat) (ht : 0 < t) : 1 ≤ (retryRun p f b m t idx d).2.1 := by
  obtain ⟨t1, rfl⟩ : ∃ t1, t = t1 + 1 := ⟨t - 1, by omega⟩
  cases hf : f idx with
  | ok a =>
    cases a
    rw [retryRun_succeeds p f b m t1 idx d hf]
  | error e =>
    cases hp : p e with
    | false =>
      rw [retryRun_aborts_now p f b m t1 idx d e hf hp]
    | true =>
      cases t1 with
      | zero =>
        rw [retryRun_last_failure p f b m idx d e hf hp]
      | succ t2 =>
        rw [retryRun_retries p f b m t2 idx d e hf hp]
        exact Nat.succ_le_succ (Nat.zero_le _)

/-- When the first `n` attempts fail retryably and attempt `n` (0-based)
succeeds within the try budget, the loop succeeds after exactly `n + 1`
attempts. -/
theorem retryRun_first_success (p : PyErr → Bool) (f : Nat → Except PyErr Unit)
    (b m : Nat) : ∀ (n t idx d : Nat), n < t →
      (∀ i, i < n → RetryableAt p f (idx + i)) →
      f (idx + n) = Except.ok () →
      (retryRun p f b m t idx d).1 = Except.ok () ∧
      (retryRun p f b m t idx d).2.1 = n + 1 := by
  intro n
  induction n with
  | zero =>
    intro t idx d ht _ hok
    obtain ⟨t1, rfl⟩ : ∃ t1, t = t1 + 1 := ⟨t - 1, by omega⟩
    rw [retryRun_succeeds p f b m t1 idx d (by simpa using hok)]
    exact ⟨rfl, rfl⟩
  | succ n ih =>
    intro t idx d ht hfail hok
    obtain ⟨t2, rfl⟩ : ∃ t2, t = t2 + 2 := ⟨t - 2, by omega⟩
    obtain ⟨e, he, hpe⟩ := hfail 0 (Nat.succ_pos n)
    rw [retryRun_retries p f b m t2 idx d e (by simpa using he) hpe]
    have hrec := ih (t2 + 1) (idx + 1) (min (d * b) m) (by omega)
      (fun i hi => by
        have h2 := hfail (i + 1) (by omega)
        rwa [show idx + (i + 1) = idx + 1 + i by omega] at h2)
      (by rwa [show idx + (n + 1) = idx + 1 + n by omega] at hok)
    exact ⟨hrec.1, congrArg (· + 1) hrec.2⟩

/-- When every attempt in the budget fails with the same retryable
exception, the loop exhausts the budget: the exception of the final attempt
propagates after exactly `tries` attempts. -/
theorem retryRun_exhausts (p : PyErr → Bool) (f : Nat → Except PyErr Unit)
    (b m : Nat) (e : PyErr) (hp : p e = true) :
    ∀ (t idx d : Nat), 0 < t → (∀ i, i < t → f (idx + i) = Except.error e) →
      (retryRun p f b m t idx d).1 = Except.error e ∧
      (retryRun p f b m t idx d).2.1 = t := by
  intro t
  induction t with
  | zero => intro idx d h; omega
  | succ t ih =>
    intro idx d _ hfail
    cases t with
    | zero =>
      rw [retryRun_last_failure p f b m idx d e (by simpa using hfail 0 (by omega)) hp]
      exact ⟨rfl, rfl⟩
    | succ t2 =>
      rw [retryRun_retries p f b m t2 idx d e (by simpa using hfail 0 (by omega)) hp]
      have hrec := ih (idx + 1) (min (d * b) m) (by omega)
        (fun i hi => by
          have h2 := hfail (i + 1) (by omega)
          rwa [show idx + (i + 1) = idx + 1 + i by omega] at h2)
      exact ⟨hrec.1, congrArg (· + 1) hrec.2⟩

/-- When the first `n` attempts fail retryably and attempt `n` (0-based)
raises a non-retryable exception within the budget, that exception
propagates immediately after exactly `n + 1` attempts. -/
theorem retryRun_propagates (p : PyErr → Bool) (f : Nat → Except PyErr Unit)
    (b m : Nat) (e : PyErr) (hp : p e = false) :
    ∀ (n t idx d : Nat), n < t →
      (∀ i, i < n → RetryableAt p f (idx + i)) →
      f (idx + n) = Except.error e →
      (retryRun p f b m t idx d).1 = Except.error e ∧
      (retryRun p f b m t idx d).2.1 = n + 1 := by
  intro n
  induction n with
  | zero =>
    intro t idx d ht _ herr
    obtain ⟨t1, rfl⟩ : ∃ t1, t = t1 + 1 := ⟨t - 1, by omega⟩
    rw [retryRun_aborts_now p f b m t1 idx d e (by simpa using herr) hp]
    exact ⟨rfl, rfl⟩
  | succ n ih =>
    intro t idx d ht hfail herr
    obtain ⟨t2, rfl⟩ : ∃ t2, t = t2 + 2 := ⟨t - 2, by omega⟩
    obtain ⟨e2, he2, hpe2⟩ := hfail 0 (Nat.succ_pos n)
    rw [retryRun_retries p f b m t2 idx d e2 (by simpa using he2) hpe2]
    have hrec := ih (t2 + 1) (idx + 1) (min (d * b) m) (by omega)
      (fun i hi => by
        have h2 := hfail (i + 1) (by omega)
        rwa [show idx + (i + 1) = idx + 1 + i by omega] at h2)
      (by rwa [show idx + (n + 1) = idx + 1 + n by omega] at herr)
    exact ⟨hrec.1, congrArg (· + 1) hrec.2⟩

/-- On every run the sleeps performed are the doubling-and-capped delay
sequence, one sleep between consecutive attempts (hence one fewer sleep
than attempts). -/
theorem retryRun_delays (p : PyErr → Bool) (f : Nat → Except PyErr Unit)
    (b m : Nat) : ∀ (t idx d : Nat),
      (retryRun p f b m t idx d).2.2 =
        delaySeq b m d ((retryRun p f b m t idx d).2.1 - 1) := by
  intro t
  induction t with
  | zero => intro idx d; simp [retryRun, delaySeq]
  | succ t ih =>
    intro idx d
    cases hf : f idx with
    | ok a =>
      cases a
      rw [retryRun_succeeds p f b m t idx d hf]
      simp [delaySeq]
    | error e =>
      cases hp : p e with
      | false =>
        rw [retryRun_aborts_now p f b m t idx d e hf hp]
        simp [delaySeq]
      | true =>
        cases t with
        | zero =>
          rw [retryRun_last_failure p f b m idx d e hf hp]
          simp [delaySeq]
        | succ t2 =>
          rw [retryRun_retries p f b m t2 idx d e hf hp]
          have hpos := retryRun_attempts_pos p f b m (t2 + 1) (idx + 1)
            (min (d * b) m) (Nat.succ_pos t2)
          obtain ⟨j, hj⟩ :
              ∃ j, (retryRun p f b m (t2 + 1) (idx + 1) (min (d * b) m)).2.1 = j + 1 :=
            ⟨(retryRun p f b m (t2 + 1) (idx + 1) (min (d * b) m)).2.1 - 1, by omega⟩
          have hrec := ih (idx + 1) (min (d * b) m)
          rw [hj, Nat.add_sub_cancel] at hrec
          show d :: (retryRun p f b m (t2 + 1) (idx + 1) (min (d * b) m)).2.2 =
            delaySeq b m d
              ((retryRun p f b m (t2 + 1) (idx + 1) (min (d * b) m)).2.1 + 1 - 1)
          rw [Nat.add_sub_cancel, hj, delaySeq]
          exact congrArg (d :: ·) hrec

/-- One doubling-and-capping step commutes with the closed-form capped
power. -/
theorem minDelay_step (d j : Nat) :
    min (min (d * 2) 10 * 2 ^ j) 10 = min (d * 2 ^ (j + 1)) 10 := by
  have hpow : 0 < 2 ^ j := pow_pos (by norm_num) j
  rcases le_total (d * 2) 10 with h | h
  · rw [min_eq_left h, pow_succ]
    congr 1
    ring
  · rw [min_eq_right h]
    have h1 : (10 : Nat) ≤ 10 * 2 ^ j := by nlinarith
    have h2 : (10 : Nat) ≤ d * 2 ^ (j + 1) := by
      rw [pow_succ]
      nlinarith
    rw [min_eq_right h1, min_eq_right h2]

/-- Closed form of the doubling-and-capped delay sequence: starting from a
delay `d ≤ 10` the k-th sleep (0-based) is the capped power
`min (d * 2 ^ k) 10`. -/
theorem delaySeq_two_ten : ∀ (k d : Nat), 0 < d → d ≤ 10 →
    delaySeq 2 10 d k = (List.range k).map (fun j => min (d * 2 ^ j) 10) := by
  intro k
  induction k with
  | zero => intro d _ _; simp [delaySeq]
  | succ k ih =>
    intro d hd hd10
    have hd2 : 0 < min (d * 2) 10 := by omega
    have hd2le : min (d * 2) 10 ≤ 10 := min_le_right _ _
    rw [delaySeq, ih (min (d * 2) 10) hd2 hd2le, List.range_succ_eq_map]
    simp only [List.map_cons, List.map_map]
    congr 1
    · simp only [pow_zero, mul_one]
      omega
    · refine List.map_congr_left ?_
      intro j _
      simp only [Function.comp_apply, Nat.succ_eq_add_one]
      exact minDelay_step d j

/-- Lookup after a Python dict assignment: the assigned key now maps to the
assigned value and every other key is unchanged. -/
theorem dictGet_dictSet (d : StrDict) (k v kq : String) :
    dictGet (dictSet d k v) kq = if k = kq then some v else dictGet d kq := by
  induction d with
  | nil => simp [dictSet, dictGet]
  | cons p rest ih =>
    by_cases h : p.1 = k
    · by_cases h2 : k = kq
      · simp [dictSet, dictGet, h, h2]
      · have hp : p.1 ≠ kq := by rw [h]; exact h2
        simp [dictSet, dictGet, h, h2, hp]
    · by_cases h2 : p.1 = kq
      · have hk2 : ¬k = kq := fun hk => h (by rw [h2, hk])
        have hqk : ¬kq = k := fun hk => h (h2.trans hk)
        simp [dictSet, dictGet, h, h2, hk2, hqk]
      · simp [dictSet, dictGet, h, h2, ih]

/-- Merging with a three-entry dict is three successive assignments. -/
theorem merge_dicts_three (x : StrDict) (k1 v1 k2 v2 k3 v3 : String) :
    merge_dicts x [(k1, v1), (k2, v2), (k3, v3)] =
      dictSet (dictSet (dictSet x k1 v1) k2 v2) k3 v3 := rfl

/-! Lemmas about single polling attempts. -/

/-- A running phase ends a `_wait_until_running` attempt successfully. -/
theorem waitUntilRunningAttempt_ok (s : PodStatus) (h : s.phase = "Running") :
    waitUntilRunningAttempt (Except.ok s) = Except.ok () := by
  simp [waitUntilRunningAttempt, getPodStatus, h]

/-- A non-running phase makes a `_wait_until_running` attempt raise the
retryable not-running exception. -/
theorem waitUntilRunningAttempt_notRunning (s : PodStatus)
    (h : s.phase ≠ "Running") :
    waitUntilRunningAttempt (Except.ok s) = Except.error PyErr.notRunning := by
  simp [waitUntilRunningAttempt, getPodStatus, h]

/-- An `ApiException` from the status fetch escapes a `_wait_until_running`
attempt as an `ApiException`, which the decorator does not retry. -/
theorem waitUntilRunningAttempt_api (e : ApiException) :
    waitUntilRunningAttempt (Except.error e) = Except.error (PyErr.apiExc e) := rfl

/-- A found pod makes a `_wait_until_teardown` attempt raise the retryable
not-terminated exception. -/
theorem waitUntilTeardownAttempt_found (s : PodStatus) :
    waitUntilTeardownAttempt (Except.ok s) = Except.error PyErr.notTerminated := rfl

/-- A 404 from the status fetch ends a `_wait_until_teardown` attempt
successfully. -/
theorem waitUntilTeardownAttempt_notFound (e : ApiException)
    (h : e.status = 404) :
    waitUntilTeardownAttempt (Except.error e) = Except.ok () := by
  simp [waitUntilTeardownAttempt, getPodStatus, h]

/-- A non-404 `ApiException` escapes a `_wait_until_teardown` attempt as an
`ApiException`, which the decorator does not retry. -/
theorem waitUntilTeardownAttempt_api (e : ApiException) (h : e.status ≠ 404) :
    waitUntilTeardownAttempt (Except.error e) = Except.error (PyErr.apiExc e) := by
  simp [waitUntilTeardownAttempt, getPodStatus, h]

/-- With a successful creation, `launch` is the running-wait loop. -/
theorem launchRun_create_ok (responses : Nat → StatusResp) :
    launchRun (Except.ok ()) responses =
      ((waitUntilRunningRun responses).1, 1, (waitUntilRunningRun responses).2.1) := rfl

/-- Whatever the delete call returns, `teardown` proceeds to the absence
poll: the delete outcome is swallowed. -/
theorem teardownRun_eq (deleteResp : Except ApiException Unit)
    (responses : Nat → StatusResp) :
    teardownRun deleteResp responses = waitUntilTeardownRun responses := by
  cases deleteResp <;> rfl

/-- Profile of the sleeps of a run starting at delay 1 with backoff 2 and
cap 10: the j-th sleep (0-based) is the capped power `min (1 * 2 ^ j) 10`,
there is one fewer sleep than attempts, every sleep is at most 10, and the
sleeps are non-decreasing. -/
theorem retryRun_delay_profile (p : PyErr → Bool) (f : Nat → Except PyErr Unit)
    (t idx : Nat) :
    (retryRun p f 2 10 t idx 1).2.2 =
      (List.range ((retryRun p f 2 10 t idx 1).2.1 - 1)).map
        (fun j => min (1 * 2 ^ j) 10) ∧
    (∀ x ∈ (retryRun p f 2 10 t idx 1).2.2, x ≤ 10) ∧
    List.Sorted (· ≤ ·) (retryRun p f 2 10 t idx 1).2.2 := by
  have hmap := retryRun_delays p f 2 10 t idx 1
  rw [delaySeq_two_ten _ 1 (by norm_num) (by norm_num)] at hmap
  refine ⟨hmap, ?_, ?_⟩
  · intro x hx
    rw [hmap] at hx
    obtain ⟨j, _, rfl⟩ := List.mem_map.mp hx
    exact min_le_right _ _
  · rw [hmap]
    exact (List.pairwise_lt_range _).map _
      (fun a b hab => min_le_min
        (by simp only [one_mul]; exact Nat.pow_le_pow_right (by norm_num) hab.le)
        le_rfl)

/-! Claim theorems. -/

/-- C3 (code bug): the spec says the namespace read returns the configured
target namespace (override, or in-cluster marker-file fallback), but the
module-level code binds only the upper-case global `NAMESPACE` while the
fallback guard and the `namespace` property read the never-bound lower-case
global `namespace`: importing the module in-cluster raises a `NameError`
whatever namespace is configured, and outside a cluster the property read
raises a `NameError` instead of returning the configured value. -/
theorem C3_namespace_read_name_error (configNamespace markerContent : String) :
    moduleNamespaceInit true configNamespace markerContent =
      Except.error (PyErr.nameError "namespace") ∧
    moduleNamespaceInit false configNamespace markerContent = Except.ok none ∧
    namespaceRead none = Except.error (PyErr.nameError "namespace") :=
  ⟨rfl, rfl, rfl⟩

/-- C7: constructing the controller outside a cluster (marker file absent)
always raises `NotRunningInKubernetesException`, with an empty side-effect
trace: in particular the API client is never obtained. -/
theorem C7_init_outside_cluster (server_type img nm session_id : String)
    (cmd : List String) (caller : StrDict) :
    initServer false server_type cmd img caller session_id nm =
      (Except.error PyErr.notRunningInKubernetes, []) := rfl

/-- C8: an `ApiException` from the pod-creation call inside `launch` is
re-raised to the caller immediately: exactly one creation call is made and
zero polling attempts follow. -/
theorem C8_create_failure_no_retry (e : ApiException)
    (responses : Nat → StatusResp) :
    launchRun (Except.error e) responses =
      (Except.error (PyErr.apiExc e), 1, 0) := rfl

/-- C4: the labels merged at construction map the three system keys to the
three system values whatever the caller-supplied mapping contains for those
keys; no later operation assigns the label field, and the labels read
returns the label set as constructed. -/
theorem C4_system_labels_win (server_type session_id img nm : String)
    (cmd : List String) (caller : StrDict) (s : KubernetesServer)
    (h : (initServer true server_type cmd img caller session_id nm).1 =
      Except.ok s) :
    dictGet (labelsRead s) "server-fixtures" = some "kubernetes-server-fixtures" ∧
    dictGet (labelsRead s) "server-fixtures/server-type" = some server_type ∧
    dictGet (labelsRead s) "server-fixtures/session-id" = some session_id ∧
    labelsRead (hostnameFieldEffect (teardownFieldEffect (launchFieldEffect s))) =
      labelsRead s := by
  have hs : KubernetesServer.mk img cmd
      (merge_dicts caller
        [("server-fixtures", "kubernetes-server-fixtures"),
         ("server-fixtures/server-type", server_type),
         ("server-fixtures/session-id", session_id)]) nm = s := Except.ok.inj h
  subst hs
  refine ⟨?_, ?_, ?_, rfl⟩ <;>
    simp [labelsRead, merge_dicts_three, dictGet_dictSet]

/-- Witness for C4 at the example inputs: caller labels attempt to override
`server-fixtures`, yet the constructed label set maps the three system keys
to the system values. -/
theorem C4_system_labels_win_witness :
    dictGet (labelsRead exampleServer) "server-fixtures" =
      some "kubernetes-server-fixtures" ∧
    dictGet (labelsRead exampleServer) "server-fixtures/server-type" =
      some "redis" ∧
    dictGet (labelsRead exampleServer) "server-fixtures/session-id" =
      some "sess1" ∧
    labelsRead (hostnameFieldEffect (teardownFieldEffect
      (launchFieldEffect exampleServer))) = labelsRead exampleServer :=
  C4_system_labels_win "redis" "sess1" "redis:7" "pod-1" ["redis-server"]
    [("server-fixtures", "override-attempt"), ("team", "x")] exampleServer rfl

/-- C9: the pod body submitted by `launch` has exactly one container, named
`fixture`, with the given image and command; its metadata labels keep every
caller-supplied entry whose key is not a system key and map the three
system keys to the system values. -/
theorem C9_submitted_pod_body (server_type session_id img nm : String)
    (cmd : List String) (caller : StrDict) (s : KubernetesServer)
    (h : (initServer true server_type cmd img caller session_id nm).1 =
      Except.ok s) :
    (createPodBody s).spec.containers = [⟨"fixture", img, cmd⟩] ∧
    (∀ k v, dictGet caller k = some v →
      k ≠ "server-fixtures" → k ≠ "server-fixtures/server-type" →
      k ≠ "server-fixtures/session-id" →
      dictGet (createPodBody s).metadata.labels k = some v) ∧
    dictGet (createPodBody s).metadata.labels "server-fixtures" =
      some "kubernetes-server-fixtures" ∧
    dictGet (createPodBody s).metadata.labels "server-fixtures/server-type" =
      some server_type ∧
    dictGet (createPodBody s).metadata.labels "server-fixtures/session-id" =
      some session_id := by
  have hs : KubernetesServer.mk img cmd
      (merge_dicts caller
        [("server-fixtures", "kubernetes-server-fixtures"),
         ("server-fixtures/server-type", server_type),
         ("server-fixtures/session-id", session_id)]) nm = s := Except.ok.inj h
  subst hs
  refine ⟨rfl, ?_, ?_, ?_, ?_⟩
  · intro k v hkv hk1 hk2 hk3
    simp [createPodBody, merge_dicts_three, dictGet_dictSet,
      (Ne.symm hk1), (Ne.symm hk2), (Ne.symm hk3), hkv]
  all_goals
    simp [createPodBody, merge_dicts_three, dictGet_dictSet]

/-- Witness for C9 at the spec's example scenario: image `redis:7`, command
`redis-server`, caller labels `team: x` — the submitted pod has the single
`fixture` container and labels containing `team: x` and the three system
entries. -/
theorem C9_submitted_pod_body_witness :
    (createPodBody exampleServer).spec.containers =
      [⟨"fixture", "redis:7", ["redis-server"]⟩] ∧
    dictGet (createPodBody exampleServer).metadata.labels "team" = some "x" ∧
    dictGet (createPodBody exampleServer).metadata.labels "server-fixtures" =
      some "kubernetes-server-fixtures" ∧
    dictGet (createPodBody exampleServer).metadata.labels
      "server-fixtures/server-type" = some "redis" ∧
    dictGet (createPodBody exampleServer).metadata.labels
      "server-fixtures/session-id" = some "sess1" := by
  have h := C9_submitted_pod_body "redis" "sess1" "redis:7" "pod-1"
    ["redis-server"] [("server-fixtures", "override-attempt"), ("team", "x")]
    exampleServer rfl
  exact ⟨h.1,
    h.2.1 "team" "x" (by decide) (by decide) (by decide) (by decide),
    h.2.2.1, h.2.2.2.1, h.2.2.2.2⟩

/-- C1 (amended): with a successful creation, the launch wait loop exits
successfully as soon as an attempt observes phase `Running`; an attempt
observing any other phase triggers another attempt; an `ApiException`
during a status fetch is not translated to "not running" but propagates
out of `launch` immediately; if each of the 28 attempts observes a
non-`Running` phase, `launch` raises the not-running error after exactly
28 attempts; and no run makes more than 28 attempts. -/
theorem C1_launch_polling (responses : Nat → StatusResp) :
    (∀ n s, n < 28 →
      (∀ i, i < n → ObservesNonRunning responses i) →
      responses n = Except.ok s → s.phase = "Running" →
      launchRun (Except.ok ()) responses = (Except.ok (), 1, n + 1)) ∧
    ((∀ i, i < 28 → ObservesNonRunning responses i) →
      launchRun (Except.ok ()) responses =
        (Except.error PyErr.notRunning, 1, 28)) ∧
    (∀ n e, n < 28 →
      (∀ i, i < n → ObservesNonRunning responses i) →
      responses n = Except.error e →
      launchRun (Except.ok ()) responses =
        (Except.error (PyErr.apiExc e), 1, n + 1)) ∧
    (launchRun (Except.ok ()) responses).2.2 ≤ 28 := by
  have hretry : ∀ i, ObservesNonRunning responses i →
      RetryableAt isNotRunningExc
        (fun j => waitUntilRunningAttempt (responses j)) i := by
    intro i hobs
    obtain ⟨s, hs, hph⟩ := hobs
    exact ⟨PyErr.notRunning,
      by show waitUntilRunningAttempt (responses i) = Except.error PyErr.notRunning
         rw [hs]; exact waitUntilRunningAttempt_notRunning s hph, rfl⟩
  refine ⟨?_, ?_, ?_, ?_⟩
  · intro n s hn hprev hn_ok hph
    have hr := retryRun_first_success isNotRunningExc
      (fun j => waitUntilRunningAttempt (responses j)) 2 10 n 28 0 1 hn
      (fun i hi => by simpa using hretry i (hprev i hi))
      (by simp only [Nat.zero_add]; rw [hn_ok];
          exact waitUntilRunningAttempt_ok s hph)
    have h1 : (waitUntilRunningRun responses).1 = Except.ok () := hr.1
    have h2 : (waitUntilRunningRun responses).2.1 = n + 1 := hr.2
    rw [launchRun_create_ok, h1, h2]
  · intro hall
    have hr := retryRun_exhausts isNotRunningExc
      (fun j => waitUntilRunningAttempt (responses j)) 2 10
      PyErr.notRunning rfl 28 0 1 (by norm_num)
      (fun i hi => by
        obtain ⟨s, hs, hph⟩ := hall i hi
        simp only [Nat.zero_add]
        rw [hs]; exact waitUntilRunningAttempt_notRunning s hph)
    have h1 : (waitUntilRunningRun responses).1 = Except.error PyErr.notRunning :=
      hr.1
    have h2 : (waitUntilRunningRun responses).2.1 = 28 := hr.2
    rw [launchRun_create_ok, h1, h2]
  · intro n e hn hprev herr
    have hr := retryRun_propagates isNotRunningExc
      (fun j => waitUntilRunningAttempt (responses j)) 2 10
      (PyErr.apiExc e) rfl n 28 0 1 hn
      (fun i hi => by simpa using hretry i (hprev i hi))
      (by simp only [Nat.zero_add]; rw [herr];
          exact waitUntilRunningAttempt_api e)
    have h1 : (waitUntilRunningRun responses).1 = Except.error (PyErr.apiExc e) :=
      hr.1
    have h2 : (waitUntilRunningRun responses).2.1 = n + 1 := hr.2
    rw [launchRun_create_ok, h1, h2]
  · exact retryRun_attempts_le isNotRunningExc
      (fun j => waitUntilRunningAttempt (responses j)) 2 10 28 0 1

/-- Counterexample to C1 as stated: the first status fetch fails with an
`ApiException`; the claim says this is translated to "not running" and
triggers another attempt (the next response reports `Running`, so launch
would then succeed), but the code propagates the `ApiException` out of
`launch` after a single polling attempt. -/
theorem C1_counterexample :
    (launchRun (Except.ok ()) apiErrorThenRunning).1 =
      Except.error (PyErr.apiExc ⟨500, "boom"⟩) ∧
    (launchRun (Except.ok ()) apiErrorThenRunning).2.2 = 1 ∧
    apiErrorThenRunning 1 = Except.ok ⟨"Running", "10.0.0.9"⟩ :=
  ⟨rfl, rfl, rfl⟩

/-- Witness for C1 at a stream that always reports `Pending`: launch makes
exactly 28 attempts and raises the not-running error. -/
theorem C1_launch_polling_witness :
    launchRun (Except.ok ()) alwaysPending =
      (Except.error PyErr.notRunning, 1, 28) :=
  (C1_launch_polling alwaysPending).2.1
    (fun _ _ => ⟨⟨"Pending", ""⟩, rfl, by decide⟩)

/-- C2: during teardown's absence poll an attempt succeeds exactly when the
status fetch fails with 404, and the poll stops after that attempt; a
successful status fetch (pod still found) triggers another attempt;
28 found-statuses exhaust the budget and raise the not-terminated error;
and a non-404 `ApiException` propagates to the caller immediately, with no
further attempt. -/
theorem C2_teardown_polling (deleteResp : Except ApiException Unit)
    (responses : Nat → StatusResp) :
    (∀ n e, n < 28 →
      (∀ i, i < n → StatusFound responses i) →
      responses n = Except.error e → e.status = 404 →
      (teardownRun deleteResp responses).1 = Except.ok () ∧
      (teardownRun deleteResp responses).2.1 = n + 1) ∧
    ((∀ i, i < 28 → StatusFound responses i) →
      (teardownRun deleteResp responses).1 =
        Except.error PyErr.notTerminated ∧
      (teardownRun deleteResp responses).2.1 = 28) ∧
    (∀ n e, n < 28 →
      (∀ i, i < n → StatusFound responses i) →
      responses n = Except.error e → e.status ≠ 404 →
      (teardownRun deleteResp responses).1 =
        Except.error (PyErr.apiExc e) ∧
      (teardownRun deleteResp responses).2.1 = n + 1) := by
  have hfound : ∀ i, StatusFound responses i →
      RetryableAt isNotTerminatedExc
        (fun j => waitUntilTeardownAttempt (responses j)) i := by
    intro i hst
    obtain ⟨s, hs⟩ := hst
    exact ⟨PyErr.notTerminated,
      by show waitUntilTeardownAttempt (responses i) = Except.error PyErr.notTerminated
         rw [hs]; rfl, rfl⟩
  rw [teardownRun_eq]
  refine ⟨?_, ?_, ?_⟩
  · intro n e hn hprev herr h404
    have hr := retryRun_first_success isNotTerminatedExc
      (fun j => waitUntilTeardownAttempt (responses j)) 2 10 n 28 0 1 hn
      (fun i hi => by simpa using hfound i (hprev i hi))
      (by simp only [Nat.zero_add]; rw [herr];
          exact waitUntilTeardownAttempt_notFound e h404)
    exact ⟨hr.1, hr.2⟩
  · intro hall
    have hr := retryRun_exhausts isNotTerminatedExc
      (fun j => waitUntilTeardownAttempt (responses j)) 2 10
      PyErr.notTerminated rfl 28 0 1 (by norm_num)
      (fun i hi => by
        obtain ⟨s, hs⟩ := hall i hi
        simp only [Nat.zero_add]
        rw [hs]; rfl)
    exact ⟨hr.1, hr.2⟩
  · intro n e hn hprev herr hne
    have hr := retryRun_propagates isNotTerminatedExc
      (fun j => waitUntilTeardownAttempt (responses j)) 2 10
      (PyErr.apiExc e) rfl n 28 0 1 hn
      (fun i hi => by simpa using hfound i (hprev i hi))
      (by simp only [Nat.zero_add]; rw [herr];
          exact waitUntilTeardownAttempt_api e hne)
    exact ⟨hr.1, hr.2⟩

/-- Witness for C2: with the pod reported absent (404) on the first poll,
teardown succeeds after a single attempt. -/
theorem C2_teardown_polling_witness :
    (teardownRun (Except.ok ()) notFound404).1 = Except.ok () ∧
    (teardownRun (Except.ok ()) notFound404).2.1 = 1 :=
  (C2_teardown_polling (Except.ok ()) notFound404).1 0 ⟨404, "Not Found"⟩
    (by norm_num) (fun i hi => absurd hi (Nat.not_lt_zero i)) rfl rfl

/-- C6: teardown swallows any API failure of the delete call and proceeds
to the absence poll regardless of the delete outcome; when the cluster
reports the pod absent (404) on the first absence-poll attempt, teardown
completes without raising, even if the delete call failed. -/
theorem C6_delete_failure_swallowed (deleteResp : Except ApiException Unit)
    (responses : Nat → StatusResp) :
    teardownRun deleteResp responses = waitUntilTeardownRun responses ∧
    (∀ e : ApiException, responses 0 = Except.error e → e.status = 404 →
      (teardownRun deleteResp responses).1 = Except.ok () ∧
      (teardownRun deleteResp responses).2.1 = 1) := by
  refine ⟨teardownRun_eq deleteResp responses, ?_⟩
  intro e h0 h404
  rw [teardownRun_eq]
  have hr : waitUntilTeardownRun responses = (Except.ok (), 1, []) :=
    retryRun_succeeds isNotTerminatedExc
      (fun j => waitUntilTeardownAttempt (responses j)) 2 10 27 0 1
      (by show waitUntilTeardownAttempt (responses 0) = Except.ok ()
          rw [h0]; exact waitUntilTeardownAttempt_notFound e h404)
  rw [hr]
  exact ⟨rfl, rfl⟩

/-- Witness for C6: the delete call itself fails with HTTP 500 yet teardown
completes without raising because the first poll reports 404. -/
theorem C6_delete_failure_swallowed_witness :
    (teardownRun (Except.error ⟨500, "boom"⟩) notFound404).1 = Except.ok () ∧
    (teardownRun (Except.error ⟨500, "boom"⟩) notFound404).2.1 = 1 :=
  (C6_delete_failure_swallowed (Except.error ⟨500, "boom"⟩) notFound404).2
    ⟨404, "Not Found"⟩ rfl rfl

/-- C5: when the status fetch succeeds, the hostname read raises the
not-running error exactly when the fetched phase is not `Running` and
returns the assigned pod IP otherwise; consequently, when the cluster
transitions the pod to `Running` with a non-empty IP within the retry
budget, `launch` followed immediately by `hostname` returns that non-empty
address string. -/
theorem C5_hostname_after_launch (responses : Nat → StatusResp) (ip : String)
    (k : Nat) :
    (∀ s : PodStatus,
      (hostnameRead (Except.ok s) = Except.error PyErr.notRunning ↔
        s.phase ≠ "Running") ∧
      (s.phase = "Running" → hostnameRead (Except.ok s) = Except.ok s.pod_ip)) ∧
    (k < 28 → ip ≠ "" →
      (∀ i, i < k → ObservesNonRunning responses i) →
      (∀ i, k ≤ i → responses i = Except.ok ⟨"Running", ip⟩) →
      launchThenHostname (Except.ok ()) responses = Except.ok ip ∧ ip ≠ "") := by
  constructor
  · intro s
    constructor
    · by_cases h : s.phase = "Running"
      · simp [hostnameRead, getPodStatus, h]
      · simp [hostnameRead, getPodStatus, h]
    · intro h
      simp [hostnameRead, getPodStatus, h]
  · intro hk hip hprev hrun
    have hr := retryRun_first_success isNotRunningExc
      (fun j => waitUntilRunningAttempt (responses j)) 2 10 k 28 0 1 hk
      (fun i hi => by
        obtain ⟨s, hs, hph⟩ := hprev i hi
        exact ⟨PyErr.notRunning,
          by simp only [Nat.zero_add]; rw [hs];
             exact waitUntilRunningAttempt_notRunning s hph, rfl⟩)
      (by simp only [Nat.zero_add]; rw [hrun k le_rfl];
          exact waitUntilRunningAttempt_ok ⟨"Running", ip⟩ rfl)
    have hl : launchRun (Except.ok ()) responses = (Except.ok (), 1, k + 1) := by
      have h1 : (waitUntilRunningRun responses).1 = Except.ok () := hr.1
      have h2 : (waitUntilRunningRun responses).2.1 = k + 1 := hr.2
      rw [launchRun_create_ok, h1, h2]
    have hstep : launchThenHostname (Except.ok ()) responses =
        hostnameRead (responses (k + 1)) := by
      simp only [launchThenHostname, hl]
    rw [hstep, hrun (k + 1) (by omega)]
    exact ⟨by simp [hostnameRead, getPodStatus], hip⟩

/-- Witness for C5: the cluster reports `Pending` once and then `Running`
with IP 10.0.0.5; launch then hostname returns that non-empty address. -/
theorem C5_hostname_after_launch_witness :
    launchThenHostname (Except.ok ()) pendingThenRunning =
      Except.ok "10.0.0.5" ∧ "10.0.0.5" ≠ "" :=
  (C5_hostname_after_launch pendingThenRunning "10.0.0.5" 1).2
    (by norm_num) (by decide)
    (fun i hi => by
      have h0 : i = 0 := by omega
      subst h0
      exact ⟨⟨"Pending", ""⟩, rfl, by decide⟩)
    (fun i hi => by
      have h0 : i ≠ 0 := by omega
      simp [pendingThenRunning, h0])

/-- C10 (amended): in both polling loops the sleeps between consecutive
attempts follow the capped doubling sequence — the j-th sleep (0-based) is
min (1 * 2 ^ j) 10 — with no sleep before the first attempt or after the
last, hence one fewer sleep than attempts (at most 27 sleeps for at most
28 attempts); the sleep sequence is non-decreasing and capped at 10. -/
theorem C10_backoff_profile (responses : Nat → StatusResp) :
    ((waitUntilRunningRun responses).2.2 =
      (List.range ((waitUntilRunningRun responses).2.1 - 1)).map
        (fun j => min (1 * 2 ^ j) 10) ∧
     (waitUntilRunningRun responses).2.1 ≤ 28 ∧
     (∀ x ∈ (waitUntilRunningRun responses).2.2, x ≤ 10) ∧
     List.Sorted (· ≤ ·) (waitUntilRunningRun responses).2.2) ∧
    ((waitUntilTeardownRun responses).2.2 =
      (List.range ((waitUntilTeardownRun responses).2.1 - 1)).map
        (fun j => min (1 * 2 ^ j) 10) ∧
     (waitUntilTeardownRun responses).2.1 ≤ 28 ∧
     (∀ x ∈ (waitUntilTeardownRun responses).2.2, x ≤ 10) ∧
     List.Sorted (· ≤ ·) (waitUntilTeardownRun responses).2.2) := by
  have h1 := retryRun_delay_profile isNotRunningExc
    (fun j => waitUntilRunningAttempt (responses j)) 28 0
  have h2 := retryRun_delay_profile isNotTerminatedExc
    (fun j => waitUntilTeardownAttempt (responses j)) 28 0
  exact ⟨⟨h1.1, retryRun_attempts_le isNotRunningExc
      (fun j => waitUntilRunningAttempt (responses j)) 2 10 28 0 1,
      h1.2.1, h1.2.2⟩,
    ⟨h2.1, retryRun_attempts_le isNotTerminatedExc
      (fun j => waitUntilTeardownAttempt (responses j)) 2 10 28 0 1,
      h2.2.1, h2.2.2⟩⟩

/-- Counterexample to C10 as stated: on a run that exhausts all 28 attempts
there are only 27 sleeps — none precedes the first attempt — so there is no
delay "before attempt n" for all n = 1..28; moreover the sleep that
precedes attempt 2 is 1, not the claimed min (1 * 2 ^ (2 - 1)) 10 = 2. -/
theorem C10_counterexample :
    (waitUntilRunningRun alwaysPending).2.1 = 28 ∧
    (waitUntilRunningRun alwaysPending).2.2.length = 27 ∧
    (waitUntilRunningRun alwaysPending).2.2.headI = 1 ∧
    min (1 * 2 ^ (2 - 1)) 10 = 2 ∧
    (waitUntilRunningRun alwaysPending).2.2 =
      [1, 2, 4, 8, 10, 10, 10, 10, 10, 10, 10, 10, 10, 10, 10, 10, 10, 10,
       10, 10, 10, 10, 10, 10, 10, 10, 10] :=
  ⟨rfl, rfl, rfl, rfl, rfl⟩

end PytestServerFixtures
